import Mathlib

/-!
Shallow embedding of the Express chat backend in src/index.js.

Each route handler is modelled as a pure function. The document store is an
explicit state value threaded through the handlers; the external completion
API is a function parameter, and every request sent to it is recorded in the
handler result so that properties about the outbound call can be stated.
The Mongoose schema files (models/User, models/Conversation) are not under
src, so the shape of the stored records is modelled from the spec, section 3.

One fact of the source dominates the chatbot claims: index.js requires only
the User model (line 3) and never requires or defines Conversation, yet uses
it at lines 199, 205 and 206. Reaching line 199 therefore throws a reference
error inside the try block, caught at line 209 as a 500 answer, on every
single chat request whose user record was found. The chatbot embedding below
reflects this: the systemRole persistence at lines 193 to 196 completes, and
then the request fails with no outbound call and no written turn.
-/

/-- Conversation turn record. Modelled from the spec: the Conversation schema
file is not under src; per section 3 a turn holds userId, role and content,
and the store returns turns in creation (insertion) order, represented here
by the order of the list. -/
structure Turn where
  userId : Nat
  role : String
  content : String
deriving DecidableEq, Repr

/-- User record. Modelled from the spec: the User schema file is not under
src; per section 3 a user holds id, name, email, hashed password, and an
optional systemRole string. -/
structure User where
  id : Nat
  name : String
  email : String
  password : String
  systemRole : Option String
deriving DecidableEq, Repr

/-- Document store state: stored users, the id the store will assign to the
next created user (the database generates ids; modelled as a counter), and
the conversation turns in insertion order. -/
structure ServerState where
  users : List User
  nextId : Nat
  turns : List Turn
deriving DecidableEq, Repr

/-- Truthiness of an optional string taken from a JSON body: an absent field
and the empty string are both falsy, as in the source checks such as
(if systemRole) at line 193 and (if not name or not email) at line 119. -/
def jsTruthy : Option String → Bool
  | none => false
  | some s => !(s == "")

/-- Reads an optional body field as a string, an absent field read as empty. -/
def optStr : Option String → String
  | none => ""
  | some s => s

/-- The JavaScript expression (o or-else d) for an optional string o: the
default is used when o is absent or empty, as at line 85 of the source. -/
def jsOrDefault (o : Option String) (d : String) : String :=
  if jsTruthy o then optStr o else d

/-- List-level model of String.prototype.replace with a string pattern, which
replaces only the first occurrence of the pattern (used at src/index.js line
101 to strip the Bearer marker from the Authorization header). -/
def replaceFirstList (pat rep : List Char) : List Char → List Char
  | [] => if pat.isPrefixOf ([] : List Char) then rep else []
  | c :: cs =>
    if pat.isPrefixOf (c :: cs) then rep ++ (c :: cs).drop pat.length
    else c :: replaceFirstList pat rep cs

/-- String version of replaceFirstList. -/
def jsReplaceFirst (s pat rep : String) : String :=
  String.mk (replaceFirstList pat.data rep.data s.data)

/-- Whether pat occurs as a contiguous run somewhere inside l. -/
def containsSub (pat : List Char) : List Char → Bool
  | [] => pat.isPrefixOf ([] : List Char)
  | c :: cs => pat.isPrefixOf (c :: cs) || containsSub pat cs

/-- Decoded payload of a signed token: jwt.sign records the issue time iat,
and the expiresIn 1h option sets exp to iat + 3600 seconds. The signature
itself belongs to the jsonwebtoken library, which the spec places out of
scope; decoding of token strings is therefore kept abstract below. -/
structure JwtPayload where
  id : Nat
  iat : Nat
  exp : Nat
deriving DecidableEq, Repr

/-- Signing at time now (seconds) of the payload carrying a user id, with
the fixed expiresIn 1h option (src lines 139 and 177). -/
def jwtSign (id now : Nat) : JwtPayload :=
  { id := id, iat := now, exp := now + 3600 }

/-- Verification at time now: a token string either decodes to a payload or
is malformed; a decoded payload is accepted while now < exp and rejected as
expired afterwards, yielding the embedded user id on success. -/
def jwtVerifyAt (decode : String → Option JwtPayload) (now : Nat) (t : String) : Option Nat :=
  match decode t with
  | none => none
  | some p => if now < p.exp then some p.id else none

/-- Response message constants, verbatim from src/index.js. -/
def msgNoToken : String := "토큰이 없습니다."

def msgInvalidToken : String := "유효하지 않은 토큰입니다."

def msgFillAll : String := "모든 필드를 입력해주세요."

def msgUserExists : String := "이미 존재하는 사용자입니다."

def msgRegistered : String := "사용자가 성공적으로 등록되었습니다."

def msgEnterEmailPw : String := "이메일과 비밀번호를 입력해주세요."

def msgBadCredentials : String := "잘못된 이메일 또는 비밀번호입니다."

def msgLoginSuccess : String := "로그인 성공!"

def msgChatFail : String := "ChatGPT와의 상호작용 중 오류 발생"

/-- Outcome of the authentication middleware (src lines 100 to 113). -/
inductive AuthDecision where
  | noToken : AuthDecision
  | invalid : AuthDecision
  | ok : Nat → AuthDecision
deriving DecidableEq, Repr

/-- authenticateToken (src lines 100 to 113): the token is the Authorization
header with the first occurrence of the Bearer marker removed; a missing
header or an empty result is falsy and yields 401; otherwise jwt.verify
either yields the identity, attached for the handler, or throws, yielding
403. The verifier is a parameter covering both malformed and expired cases. -/
def authenticateToken (verify : String → Option Nat) (header : Option String) : AuthDecision :=
  match header.map (fun h => jsReplaceFirst h "Bearer " "") with
  | none => AuthDecision.noToken
  | some t =>
    if t = "" then AuthDecision.noToken
    else
      match verify t with
      | some uid => AuthDecision.ok uid
      | none => AuthDecision.invalid

/-- One message of the completion request body (role and content). -/
structure ChatMessage where
  role : String
  content : String
deriving DecidableEq, Repr

/-- The body sent to the external completion API (src lines 82 to 90). -/
structure ChatCompletionRequest where
  model : String
  messages : List ChatMessage
  temperature : Nat
  max_tokens : Nat
deriving DecidableEq, Repr

/-- Default system message content (src line 85). -/
def defaultSystemPrompt : String := "You are a helpful assistant."

/-- The request getChatGPTResponse builds: fixed model, a synthesized system
message first (systemRole when truthy, the default otherwise), then the given
messages, temperature 1 and a 256 token cap (src lines 82 to 90). -/
def completionRequest (messages : List ChatMessage) (systemRole : Option String) :
    ChatCompletionRequest :=
  { model := "gpt-4"
  , messages := { role := "system", content := jsOrDefault systemRole defaultSystemPrompt } :: messages
  , temperature := 1
  , max_tokens := 256 }

/-- getChatGPTResponse (src lines 80 to 97): builds the completion request
and performs the single external call; a failing call propagates as an error
(the source catches and rethrows). The request is returned alongside so the
embedding records what was sent. The function is defined in the source but
its only call site, line 201, is unreachable: the reference error at line
199 precedes it on every chat request. -/
def getChatGPTResponse (api : ChatCompletionRequest → Except Unit String)
    (messages : List ChatMessage) (systemRole : Option String) :
    Except Unit String × ChatCompletionRequest :=
  (api (completionRequest messages systemRole), completionRequest messages systemRole)

/-- JSON body of POST /api/register. -/
structure RegisterBody where
  name : Option String
  email : Option String
  password : Option String
deriving DecidableEq, Repr

/-- JSON body of POST /api/login. -/
structure LoginBody where
  email : Option String
  password : Option String
deriving DecidableEq, Repr

/-- JSON body of POST /api/chatbot. -/
structure ChatBody where
  message : String
  systemRole : Option String
deriving DecidableEq, Repr

/-- Response of the register and login routes: an HTTP status, the signed
token when one is issued, and the message string. -/
structure AuthRouteResult where
  status : Nat
  token : Option JwtPayload
  message : String
deriving DecidableEq, Repr

/-- POST /api/register (src lines 116 to 145): missing fields give 400; an
existing user with the same email gives 400; otherwise the password is
hashed (the bcrypt hash is a function parameter), the user is created, and
a token for the new user id is signed with the one hour expiry. -/
def registerHandler (hash : String → String) (now : Nat) (st : ServerState)
    (body : RegisterBody) : AuthRouteResult × ServerState :=
  if jsTruthy body.name && jsTruthy body.email && jsTruthy body.password then
    match st.users.find? (fun u => u.email == optStr body.email) with
    | some _ => ({ status := 400, token := none, message := msgUserExists }, st)
    | none =>
      let newUser : User :=
        { id := st.nextId
        , name := optStr body.name
        , email := optStr body.email
        , password := hash (optStr body.password)
        , systemRole := none }
      ({ status := 201, token := some (jwtSign newUser.id now), message := msgRegistered },
       { st with users := st.users ++ [newUser], nextId := st.nextId + 1 })
  else
    ({ status := 400, token := none, message := msgFillAll }, st)

/-- POST /api/login (src lines 159 to 183): missing fields give 400; a
missing user and a failing bcrypt comparison (the comparison is a function
parameter) both give 400 with the same message; success signs a token for
the found user id with the one hour expiry. The state is unchanged. -/
def loginHandler (compare : String → String → Bool) (now : Nat) (st : ServerState)
    (body : LoginBody) : AuthRouteResult :=
  if jsTruthy body.email && jsTruthy body.password then
    match st.users.find? (fun u => u.email == optStr body.email) with
    | none => { status := 400, token := none, message := msgBadCredentials }
    | some user =>
      if compare (optStr body.password) user.password then
        { status := 200, token := some (jwtSign user.id now), message := msgLoginSuccess }
      else
        { status := 400, token := none, message := msgBadCredentials }
  else
    { status := 400, token := none, message := msgEnterEmailPw }

/-- The user record after the systemRole step of the chatbot handler (src
lines 193 to 196): a truthy systemRole in the body is written onto the user. -/
def roleUpdatedUser (u : User) (body : ChatBody) : User :=
  if jsTruthy body.systemRole then { u with systemRole := body.systemRole } else u

/-- The user list after the systemRole step: user.save() updates the stored
record with the same id when a truthy systemRole was supplied. -/
def usersAfterRole (st : ServerState) (uid : Nat) (body : ChatBody) (u : User) : List User :=
  if jsTruthy body.systemRole then
    st.users.map (fun v => if v.id == uid then roleUpdatedUser u body else v)
  else
    st.users

/-- The store state after the systemRole step; turns are untouched. -/
def stateAfterRole (st : ServerState) (uid : Nat) (body : ChatBody) (u : User) : ServerState :=
  { st with users := usersAfterRole st uid body u }

/-- A plain HTTP response with a status and a body string. -/
structure HttpResponse where
  status : Nat
  body : String
deriving DecidableEq, Repr

/-- Result of a chatbot call: the HTTP response, the store state afterwards,
and the list of requests sent to the external API during the call. -/
structure ChatOutcome where
  resp : HttpResponse
  state : ServerState
  apiCalls : List ChatCompletionRequest
deriving DecidableEq, Repr

/-- POST /api/chatbot handler body (src lines 186 to 213), after the
middleware attached the verified user id. A missing user record makes the
handler throw before the external call (reading a property of null), caught
as 500 with nothing written and no external call. When the user is found, a
truthy systemRole is first persisted (lines 193 to 196, which complete), but
index.js never requires or defines the Conversation binding it uses at line
199, so the handler then throws a reference error there on every execution,
caught at line 209 as 500: the external call at line 201 and the turn writes
at lines 205 and 206 are unreachable, so no request records an outbound call
or appends a turn, whatever the external service would have answered. -/
def chatbotHandler (_api : ChatCompletionRequest → Except Unit String)
    (st : ServerState) (userId : Nat) (body : ChatBody) : ChatOutcome :=
  match st.users.find? (fun v => v.id == userId) with
  | none => { resp := { status := 500, body := msgChatFail }, state := st, apiCalls := [] }
  | some user0 =>
    { resp := { status := 500, body := msgChatFail }
    , state := stateAfterRole st userId body user0
    , apiCalls := [] }

/-- A protected route: the middleware decision gates the handler (src lines
148 and 186), 401 on a missing token, 403 on a failing verification, and the
handler runs on the attached identity otherwise. -/
def protectedRoute (verify : String → Option Nat) (header : Option String)
    (handler : Nat → HttpResponse) : HttpResponse :=
  match authenticateToken verify header with
  | AuthDecision.noToken => { status := 401, body := msgNoToken }
  | AuthDecision.invalid => { status := 403, body := msgInvalidToken }
  | AuthDecision.ok uid => handler uid

/-- A stored user as returned by GET /api/users, the password projected away
(src line 150). -/
structure PublicUser where
  id : Nat
  name : String
  email : String
  systemRole : Option String
deriving DecidableEq, Repr

/-- Projection dropping the password field. -/
def publicUser (u : User) : PublicUser :=
  { id := u.id, name := u.name, email := u.email, systemRole := u.systemRole }

/-- Response of GET /api/users: a status, the user list on success, and a
message on the error paths. -/
structure UsersResult where
  status : Nat
  users : List PublicUser
  message : Option String
deriving DecidableEq, Repr

/-- GET /api/users (src lines 148 to 156) behind the middleware. -/
def usersRoute (verify : String → Option Nat) (header : Option String)
    (st : ServerState) : UsersResult :=
  match authenticateToken verify header with
  | AuthDecision.noToken => { status := 401, users := [], message := some msgNoToken }
  | AuthDecision.invalid => { status := 403, users := [], message := some msgInvalidToken }
  | AuthDecision.ok _ => { status := 200, users := st.users.map publicUser, message := none }

/-- POST /api/chatbot (src line 186) behind the middleware: a rejected
request leaves the state unchanged and makes no external call. -/
def chatbotRoute (verify : String → Option Nat)
    (api : ChatCompletionRequest → Except Unit String) (st : ServerState)
    (header : Option String) (body : ChatBody) : ChatOutcome :=
  match authenticateToken verify header with
  | AuthDecision.noToken =>
    { resp := { status := 401, body := msgNoToken }, state := st, apiCalls := [] }
  | AuthDecision.invalid =>
    { resp := { status := 403, body := msgInvalidToken }, state := st, apiCalls := [] }
  | AuthDecision.ok uid => chatbotHandler api st uid body

/-- A fixed demonstration user and store used by the concrete witnesses. -/
def demoUser : User :=
  { id := 1, name := "alice", email := "a@x", password := "hpw", systemRole := some "X" }

/-- Demonstration store holding only demoUser and no turns. -/
def demoState : ServerState :=
  { users := [demoUser], nextId := 2, turns := [] }

/-! Helper lemmas about list search used by the handler proofs. -/

/-- A list containing an element satisfying the search test yields some hit. -/
theorem find_some_of_mem {α : Type} (l : List α) (p : α → Bool) (u : α)
    (hm : u ∈ l) (hp : p u = true) : ∃ w, l.find? p = some w := by
  induction l with
  | nil => cases hm
  | cons a as ih =>
    cases hpa : p a with
    | true => exact ⟨a, List.find?_cons_of_pos _ hpa⟩
    | false =>
      rcases List.mem_cons.mp hm with rfl | hm2
      · rw [hp] at hpa; cases hpa
      · obtain ⟨w, hw⟩ := ih hm2
        exact ⟨w, by rw [List.find?_cons_of_neg _ (by simp [hpa]), hw]⟩

/-- C3: a register request whose email is already present in the user store
returns status 400 and leaves the store unchanged, so no second record with
that email is created. -/
theorem register_duplicate_email (hash : String → String) (now : Nat) (st : ServerState)
    (body : RegisterBody) (u : User)
    (hmem : u ∈ st.users) (he : u.email = optStr body.email) :
    (registerHandler hash now st body).1.status = 400 ∧
    (registerHandler hash now st body).2 = st := by
  obtain ⟨w, hw⟩ :=
    find_some_of_mem st.users (fun v => v.email == optStr body.email) u hmem (by simp [he])
  unfold registerHandler
  rw [hw]
  split <;> simp

/-- Witness for register_duplicate_email at a concrete duplicate email. -/
theorem register_duplicate_email_witness :
    (registerHandler (fun p => p) 0 demoState
        { name := some "bob", email := some "a@x", password := some "pw" }).1.status = 400 ∧
    (registerHandler (fun p => p) 0 demoState
        { name := some "bob", email := some "a@x", password := some "pw" }).2 = demoState :=
  register_duplicate_email _ _ _ _ demoUser (by decide) (by decide)

/-- C4: a login with an existing email but a failing password comparison and
a login with an absent email return identical responses, both status 400
with the same message, so the two failure causes are indistinguishable. -/
theorem login_error_indistinguishable
    (compare : String → String → Bool) (now : Nat) (st : ServerState)
    (e1 p1 e2 p2 : String) (u : User)
    (h1 : st.users.find? (fun v => v.email == e1) = some u)
    (hp : compare p1 u.password = false)
    (h2 : st.users.find? (fun v => v.email == e2) = none)
    (he1 : e1 ≠ "") (hp1 : p1 ≠ "") (he2 : e2 ≠ "") (hp2 : p2 ≠ "") :
    loginHandler compare now st { email := some e1, password := some p1 } =
      loginHandler compare now st { email := some e2, password := some p2 } ∧
    (loginHandler compare now st { email := some e1, password := some p1 }).status = 400 ∧
    (loginHandler compare now st { email := some e1, password := some p1 }).message =
      msgBadCredentials := by
  unfold loginHandler
  simp [jsTruthy, optStr, he1, hp1, he2, hp2, h1, h2, hp]

/-- Witness for login_error_indistinguishable at concrete credentials. -/
theorem login_error_indistinguishable_witness :
    loginHandler (fun _ _ => false) 0 demoState { email := some "a@x", password := some "p" } =
      loginHandler (fun _ _ => false) 0 demoState { email := some "b@x", password := some "q" } ∧
    (loginHandler (fun _ _ => false) 0 demoState
        { email := some "a@x", password := some "p" }).status = 400 ∧
    (loginHandler (fun _ _ => false) 0 demoState
        { email := some "a@x", password := some "p" }).message = msgBadCredentials :=
  login_error_indistinguishable _ _ _ _ _ _ _ demoUser (by decide) rfl (by decide)
    (by decide) (by decide) (by decide) (by decide)

/-- C9: a chatbot call whose verified token id has no user record in the
store fails with 500, makes no external call, and writes nothing. -/
theorem chat_missing_user
    (api : ChatCompletionRequest → Except Unit String) (st : ServerState)
    (uid : Nat) (body : ChatBody)
    (hu : st.users.find? (fun v => v.id == uid) = none) :
    chatbotHandler api st uid body =
      { resp := { status := 500, body := msgChatFail }, state := st, apiCalls := [] } := by
  unfold chatbotHandler
  rw [hu]

/-- Witness for chat_missing_user on an empty store. -/
theorem chat_missing_user_witness :
    chatbotHandler (fun _ => Except.ok "r") { users := [], nextId := 1, turns := [] } 1
        { message := "m", systemRole := none } =
      { resp := { status := 500, body := msgChatFail },
        state := { users := [], nextId := 1, turns := [] }, apiCalls := [] } :=
  chat_missing_user _ _ _ _ rfl

/-! Lemmas about the first-occurrence replace used on the Authorization
header. -/

/-- A list is a prefix of itself followed by anything. -/
theorem isPrefixOf_append_self (pat l : List Char) : pat.isPrefixOf (pat ++ l) = true := by
  induction pat with
  | nil => simp [List.isPrefixOf]
  | cons c cs ih => simp [List.isPrefixOf, ih]

/-- Dropping the length of the first part of an append yields the rest. -/
theorem dropLen_append_self (pat l : List Char) : (pat ++ l).drop pat.length = l := by
  induction pat with
  | nil => simp
  | cons c cs ih => simp [ih]

/-- Replacing the first occurrence in a list that starts with the pattern
strips exactly that leading copy. -/
theorem replaceFirst_strip (pat rep l : List Char) :
    replaceFirstList pat rep (pat ++ l) = rep ++ l := by
  cases pat with
  | nil =>
    cases l with
    | nil => simp [replaceFirstList, List.isPrefixOf]
    | cons c cs => simp [replaceFirstList, List.isPrefixOf]
  | cons p ps =>
    simp [replaceFirstList, isPrefixOf_append_self, dropLen_append_self]

/-- Replacing the first occurrence in a list that contains no occurrence of
the pattern changes nothing. -/
theorem replaceFirst_not_contained (pat rep : List Char) (l : List Char)
    (h : containsSub pat l = false) : replaceFirstList pat rep l = l := by
  induction l with
  | nil =>
    have h0 : pat.isPrefixOf ([] : List Char) = false := by simpa [containsSub] using h
    simp [replaceFirstList, h0]
  | cons c cs ih =>
    simp only [containsSub, Bool.or_eq_false_iff] at h
    simp [replaceFirstList, h.1, ih h.2]

/-- Appending strings appends their character lists. -/
theorem data_append_str (a b : String) : (a ++ b).data = a.data ++ b.data := by
  cases a; cases b; rfl

/-- Stripping the Bearer marker from a header that is the marker followed by
the token yields the token. -/
theorem jsReplaceFirst_strip (s : String) :
    jsReplaceFirst ("Bearer " ++ s) "Bearer " "" = s := by
  unfold jsReplaceFirst
  rw [data_append_str, replaceFirst_strip]
  cases s
  rfl

/-- Stripping the Bearer marker from a string not containing it changes
nothing. -/
theorem jsReplaceFirst_id (s : String) (h : containsSub "Bearer ".data s.data = false) :
    jsReplaceFirst s "Bearer " "" = s := by
  unfold jsReplaceFirst
  rw [replaceFirst_not_contained _ _ _ h]

/-- C5: on the two protected routes, a request without an Authorization
header is answered 401 with the handler never run (the chat state is
untouched and no external call happens); a present token failing
verification is answered 403; a verified token attaches the identity and
the handler runs on it. -/
theorem protected_routes_auth_gate
    (verify : String → Option Nat) (api : ChatCompletionRequest → Except Unit String)
    (st : ServerState) (body : ChatBody) (h : String) (uid : Nat) :
    (usersRoute verify none st = { status := 401, users := [], message := some msgNoToken } ∧
      chatbotRoute verify api st none body =
        { resp := { status := 401, body := msgNoToken }, state := st, apiCalls := [] }) ∧
    (jsReplaceFirst h "Bearer " "" ≠ "" →
      verify (jsReplaceFirst h "Bearer " "") = none →
      usersRoute verify (some h) st =
        { status := 403, users := [], message := some msgInvalidToken } ∧
      chatbotRoute verify api st (some h) body =
        { resp := { status := 403, body := msgInvalidToken }, state := st, apiCalls := [] }) ∧
    (jsReplaceFirst h "Bearer " "" ≠ "" →
      verify (jsReplaceFirst h "Bearer " "") = some uid →
      usersRoute verify (some h) st =
        { status := 200, users := st.users.map publicUser, message := none } ∧
      chatbotRoute verify api st (some h) body = chatbotHandler api st uid body) := by
  refine ⟨⟨rfl, rfl⟩, ?_, ?_⟩
  · intro ht hv
    unfold usersRoute chatbotRoute authenticateToken
    simp [ht, hv]
  · intro ht hv
    unfold usersRoute chatbotRoute authenticateToken
    simp [ht, hv]

/-- Witness for protected_routes_auth_gate with a concrete verifier and a
well formed Bearer header. -/
theorem protected_routes_auth_gate_witness :
    usersRoute (fun t => if t = "tok" then some 1 else none) (some "Bearer tok") demoState =
      { status := 200, users := demoState.users.map publicUser, message := none } ∧
    chatbotRoute (fun t => if t = "tok" then some 1 else none) (fun _ => Except.ok "r")
        demoState (some "Bearer tok") { message := "m", systemRole := none } =
      chatbotHandler (fun _ => Except.ok "r") demoState 1 { message := "m", systemRole := none } :=
  (protected_routes_auth_gate (fun t => if t = "tok" then some 1 else none)
    (fun _ => Except.ok "r") demoState { message := "m", systemRole := none }
    "Bearer tok" 1).2.2 (by decide) (by decide)

/-- C6: register and login issue tokens carrying the user id, issued at the
signing time with expiry exactly one hour later; the middleware accepts a
decodable token strictly before its expiry instant and answers 403 from the
expiry instant on. -/
theorem token_one_hour_expiry
    (hash : String → String) (compare : String → String → Bool) (now : Nat)
    (st : ServerState) (rbody : RegisterBody) (lbody : LoginBody)
    (decode : String → Option JwtPayload) (nowV id T : Nat) (s : String)
    (handler : Nat → HttpResponse)
    (hdec : decode s = some (jwtSign id T)) (hs : s ≠ "") :
    (∀ p, (registerHandler hash now st rbody).1.token = some p →
        p.iat = now ∧ p.exp = now + 3600 ∧ p.id = st.nextId) ∧
    (∀ p, (loginHandler compare now st lbody).token = some p →
        p.iat = now ∧ p.exp = now + 3600 ∧ ∃ u, u ∈ st.users ∧ p.id = u.id) ∧
    (protectedRoute (jwtVerifyAt decode nowV) (some ("Bearer " ++ s)) handler =
      if nowV < T + 3600 then handler id else { status := 403, body := msgInvalidToken }) := by
  refine ⟨?_, ?_, ?_⟩
  · intro p hp
    unfold registerHandler at hp
    split at hp
    · split at hp
      · simp at hp
      · simp only [jwtSign] at hp
        simp at hp
        simp [← hp, jwtSign]
    · simp at hp
  · intro p hp
    unfold loginHandler at hp
    split at hp
    · split at hp
      · simp at hp
      · rename_i user heq
        split at hp
        · simp at hp
          refine ⟨by simp [← hp, jwtSign], by simp [← hp, jwtSign], user,
            List.mem_of_find?_eq_some heq, by simp [← hp, jwtSign]⟩
        · simp at hp
    · simp at hp
  · have hstrip : jsReplaceFirst ("Bearer " ++ s) "Bearer " "" = s := jsReplaceFirst_strip s
    by_cases hlt : nowV < T + 3600 <;>
      simp [protectedRoute, authenticateToken, hstrip, hs, jwtVerifyAt, hdec, jwtSign, hlt]

/-- Witness for token_one_hour_expiry: a token signed at time 100 is still
accepted at time 1000. -/
theorem token_one_hour_expiry_witness :
    protectedRoute
        (jwtVerifyAt (fun t => if t = "tok" then some (jwtSign 7 100) else none) 1000)
        (some ("Bearer " ++ "tok")) (fun u => { status := 200, body := toString u }) =
      (if 1000 < 100 + 3600 then
        (fun u => ({ status := 200, body := toString u } : HttpResponse)) 7
       else { status := 403, body := msgInvalidToken }) :=
  (token_one_hour_expiry (fun p => p) (fun _ _ => false) 0 demoState
    { name := none, email := none, password := none } { email := none, password := none }
    (fun t => if t = "tok" then some (jwtSign 7 100) else none) 1000 7 100 "tok"
    (fun u => { status := 200, body := toString u }) (by decide) (by decide)).2.2

/-- C10 counterexample: the header XBearer Y does not begin with the Bearer
marker, yet the middleware does not treat the whole header as the token: the
first occurrence of the marker is stripped from the middle, the extracted
token is XY, and a verifier accepting exactly the full header value rejects
the request. -/
theorem bearer_marker_stripped_anywhere :
    ("Bearer ".data.isPrefixOf "XBearer Y".data) = false ∧
    jsReplaceFirst "XBearer Y" "Bearer " "" = "XY" ∧
    authenticateToken (fun t => if t = "XBearer Y" then some 7 else none)
        (some "XBearer Y") = AuthDecision.invalid := by
  refine ⟨by decide, by decide, by decide⟩

/-- C10 amended: for a header containing no occurrence of the Bearer marker
at all, the middleware treats the entire header value as the token, and the
request is decided exactly as if the marker had been prefixed. -/
theorem bearer_token_no_marker (verify : String → Option Nat) (h : String)
    (hnc : containsSub "Bearer ".data h.data = false) :
    jsReplaceFirst h "Bearer " "" = h ∧
    authenticateToken verify (some h) =
      authenticateToken verify (some ("Bearer " ++ h)) := by
  have hid := jsReplaceFirst_id h hnc
  refine ⟨hid, ?_⟩
  unfold authenticateToken
  simp [hid, jsReplaceFirst_strip]

/-- Witness for bearer_token_no_marker: a bare token abc is accepted exactly
as with the marker. -/
theorem bearer_token_no_marker_witness :
    jsReplaceFirst "abc" "Bearer " "" = "abc" ∧
    authenticateToken (fun t => if t = "abc" then some 1 else none) (some "abc") =
      authenticateToken (fun t => if t = "abc" then some 1 else none)
        (some ("Bearer " ++ "abc")) :=
  bearer_token_no_marker (fun t => if t = "abc" then some 1 else none) "abc" (by decide)

/-! Helper lemmas about the chatbot handler. -/

/-- The systemRole step never changes the id of the user record. -/
theorem roleUpdatedUser_id (u : User) (body : ChatBody) : (roleUpdatedUser u body).id = u.id := by
  unfold roleUpdatedUser; split <;> rfl

/-- The systemRole step never touches the stored turns. -/
theorem stateAfterRole_turns (st : ServerState) (uid : Nat) (body : ChatBody) (u : User) :
    (stateAfterRole st uid body u).turns = st.turns := rfl

/-- Full characterization of a chatbot call once the user record is found:
the systemRole step runs, then the missing Conversation binding at line 199
fails the request as 500 with no outbound call and no written turn. -/
theorem chatbot_found_outcome (api : ChatCompletionRequest → Except Unit String)
    (st : ServerState) (uid : Nat) (body : ChatBody) (u : User)
    (hf : st.users.find? (fun v => v.id == uid) = some u) :
    chatbotHandler api st uid body =
      { resp := { status := 500, body := msgChatFail }
      , state := stateAfterRole st uid body u
      , apiCalls := [] } := by
  unfold chatbotHandler
  rw [hf]

/-- Updating the record found by id replaces exactly the found hit. -/
theorem find_update_id (l : List User) (uid : Nat) (u u2 : User)
    (hf : l.find? (fun v => v.id == uid) = some u) (hid : u2.id = u.id) :
    (l.map (fun v => if v.id == uid then u2 else v)).find? (fun v => v.id == uid) = some u2 := by
  induction l with
  | nil => simp at hf
  | cons a as ih =>
    by_cases ha : (a.id == uid) = true
    · have hpos : List.find? (fun v => v.id == uid) (a :: as) = some a :=
        List.find?_cons_of_pos as ha
      rw [hpos] at hf
      have hau : a = u := by simpa using hf
      have huid : (u2.id == uid) = true := by
        subst hau
        simpa [hid] using ha
      have hpos2 : List.find? (fun v => v.id == uid)
          (u2 :: (as.map (fun v => if v.id == uid then u2 else v))) = some u2 :=
        List.find?_cons_of_pos _ huid
      rw [List.map_cons, if_pos ha]
      exact hpos2
    · have hneg : List.find? (fun v => v.id == uid) (a :: as) =
          List.find? (fun v => v.id == uid) as :=
        List.find?_cons_of_neg as (by simpa using ha)
      rw [hneg] at hf
      have hneg2 : List.find? (fun v => v.id == uid)
          (a :: (as.map (fun v => if v.id == uid then u2 else v))) =
          List.find? (fun v => v.id == uid) (as.map (fun v => if v.id == uid then u2 else v)) :=
        List.find?_cons_of_neg _ (by simpa using ha)
      rw [List.map_cons, if_neg ha, hneg2]
      exact ih hf

/-- After the systemRole step, a lookup by id finds the updated record. -/
theorem find_usersAfterRole (st : ServerState) (uid : Nat) (body : ChatBody) (u : User)
    (hf : st.users.find? (fun v => v.id == uid) = some u) :
    (usersAfterRole st uid body u).find? (fun v => v.id == uid) =
      some (roleUpdatedUser u body) := by
  unfold usersAfterRole
  cases hb : jsTruthy body.systemRole with
  | false => simpa [hb, roleUpdatedUser] using hf
  | true =>
    simp only [hb, if_true]
    exact find_update_id _ _ _ _ hf (roleUpdatedUser_id u body)

/-- A chatbot call leaves the user list exactly as the systemRole step does. -/
theorem chatbot_state_users (api : ChatCompletionRequest → Except Unit String)
    (st : ServerState) (uid : Nat) (body : ChatBody) (u : User)
    (hf : st.users.find? (fun v => v.id == uid) = some u) :
    (chatbotHandler api st uid body).state.users = usersAfterRole st uid body u := by
  rw [chatbot_found_outcome api st uid body u hf]
  rfl

/-- C8 (code bug): the claim describes the failure handling of the single
external call and the two post-success writes, but the reference error at
line 199 precedes the call on every chat request: whatever the external
service would answer, the request answers 500, makes zero attempts, and the
write lines 205 and 206 never persist a turn. -/
theorem chat_turns_never_written (api : ChatCompletionRequest → Except Unit String)
    (st : ServerState) (uid : Nat) (body : ChatBody) (u : User)
    (hf : st.users.find? (fun v => v.id == uid) = some u) :
    (chatbotHandler api st uid body).resp.status = 500 ∧
    (chatbotHandler api st uid body).state.turns = st.turns ∧
    (chatbotHandler api st uid body).apiCalls = [] := by
  rw [chatbot_found_outcome api st uid body u hf]
  exact ⟨rfl, rfl, rfl⟩

/-- Witness for chat_turns_never_written: even an external service that
would reply successfully is never consulted, and no turn is written. -/
theorem chat_turns_never_written_witness :
    (chatbotHandler (fun _ => Except.ok "fine") demoState 1
        { message := "m8", systemRole := none }).resp.status = 500 ∧
    (chatbotHandler (fun _ => Except.ok "fine") demoState 1
        { message := "m8", systemRole := none }).state.turns = demoState.turns ∧
    (chatbotHandler (fun _ => Except.ok "fine") demoState 1
        { message := "m8", systemRole := none }).apiCalls = [] :=
  chat_turns_never_written (fun _ => Except.ok "fine") demoState 1
    { message := "m8", systemRole := none } demoUser (by decide)

/-- C2 (code bug): the claim says the external completion API is invoked
with the synthesized message list and fixed parameters, but no chat request
ever invokes it: the reference error at line 199 precedes the call at line
201, so every request that found its user records zero outbound calls and
answers 500. -/
theorem chat_api_never_invoked (api : ChatCompletionRequest → Except Unit String)
    (st : ServerState) (uid : Nat) (body : ChatBody) (u : User)
    (hf : st.users.find? (fun v => v.id == uid) = some u) :
    (chatbotHandler api st uid body).apiCalls = [] ∧
    (chatbotHandler api st uid body).resp.status = 500 := by
  rw [chatbot_found_outcome api st uid body u hf]
  exact ⟨rfl, rfl⟩

/-- Witness for chat_api_never_invoked on the demonstration store. -/
theorem chat_api_never_invoked_witness :
    (chatbotHandler (fun _ => Except.error ()) demoState 1
        { message := "m2", systemRole := none }).apiCalls = [] ∧
    (chatbotHandler (fun _ => Except.error ()) demoState 1
        { message := "m2", systemRole := none }).resp.status = 500 :=
  chat_api_never_invoked (fun _ => Except.error ()) demoState 1
    { message := "m2", systemRole := none } demoUser (by decide)

/-- C7 counterexample: a chat request that supplies the empty string as its
systemRole does supply a systemRole value, yet nothing is persisted: after
the request the stored record still carries the old role X, not the supplied
empty string. -/
theorem chat_empty_role_not_persisted :
    (chatbotHandler (fun _ => Except.ok "r") demoState 1
        { message := "m", systemRole := some "" }).state.users.find?
      (fun v => v.id == 1) = some demoUser ∧
    demoUser.systemRole ≠ some "" :=
  ⟨by decide, by decide⟩

/-- C7 amended: a chat request supplying a nonempty systemRole persists it
onto the requesting user record before the request fails at line 199, and
the persisted value is still stored after a subsequent chat request without
an override; a chat request whose systemRole is absent or empty leaves the
user records unchanged. (The original clause that a subsequent request sends
the persisted role as its system message cannot hold: no request reaches the
message-building call, see chat_api_never_invoked.) -/
theorem chat_system_role_persistence
    (api api2 : ChatCompletionRequest → Except Unit String)
    (st : ServerState) (uid : Nat) (body : ChatBody) (u : User) (m2 : String) (s : String)
    (hf : st.users.find? (fun v => v.id == uid) = some u) :
    (body.systemRole = some s → s ≠ "" →
      ((chatbotHandler api st uid body).state.users.find? (fun v => v.id == uid) =
        some { u with systemRole := some s }) ∧
      ((chatbotHandler api2 (chatbotHandler api st uid body).state uid
          { message := m2, systemRole := none }).state.users.find?
        (fun v => v.id == uid) = some { u with systemRole := some s })) ∧
    (jsTruthy body.systemRole = false →
      (chatbotHandler api st uid body).state.users = st.users) := by
  constructor
  · intro hs hns
    have hru : roleUpdatedUser u body = { u with systemRole := some s } := by
      unfold roleUpdatedUser
      simp [hs, jsTruthy, hns]
    have hfind2 : (chatbotHandler api st uid body).state.users.find? (fun v => v.id == uid) =
        some { u with systemRole := some s } := by
      rw [chatbot_state_users api st uid body u hf, ← hru]
      exact find_usersAfterRole st uid body u hf
    refine ⟨hfind2, ?_⟩
    have husers2 : (chatbotHandler api2 (chatbotHandler api st uid body).state uid
        { message := m2, systemRole := none }).state.users =
        (chatbotHandler api st uid body).state.users := by
      rw [chatbot_state_users api2 _ uid _ _ hfind2]
      unfold usersAfterRole
      simp [jsTruthy]
    rw [husers2]
    exact hfind2
  · intro hb
    rw [chatbot_state_users api st uid body u hf]
    unfold usersAfterRole
    simp [hb]

/-- Witness for chat_system_role_persistence: NewRole supplied on the first
request is stored and still stored after a second request. -/
theorem chat_system_role_persistence_witness :
    ((chatbotHandler (fun _ => Except.ok "r") demoState 1
        { message := "m", systemRole := some "NewRole" }).state.users.find?
      (fun v => v.id == 1) = some { demoUser with systemRole := some "NewRole" }) ∧
    ((chatbotHandler (fun _ => Except.ok "r2")
        (chatbotHandler (fun _ => Except.ok "r") demoState 1
          { message := "m", systemRole := some "NewRole" }).state 1
        { message := "m2", systemRole := none }).state.users.find?
      (fun v => v.id == 1) = some { demoUser with systemRole := some "NewRole" }) :=
  (chat_system_role_persistence (fun _ => Except.ok "r") (fun _ => Except.ok "r2")
    demoState 1 { message := "m", systemRole := some "NewRole" } demoUser "m2" "NewRole"
    (by decide)).1 rfl (by decide)

/-- C1 (code bug): the claim says a chat request forwards the stored turns
and that the second of two sequential requests forwards both turns of the
first; but index.js never requires the Conversation model, so every chat
request that found its user throws at line 199 and answers 500: the first
request stores no turn and the second request forwards nothing at all. -/
theorem chat_history_never_forwarded
    (api1 api2 : ChatCompletionRequest → Except Unit String)
    (st : ServerState) (uid : Nat) (u : User) (body1 body2 : ChatBody)
    (hf : st.users.find? (fun v => v.id == uid) = some u) :
    (chatbotHandler api1 st uid body1).resp.status = 500 ∧
    (chatbotHandler api1 st uid body1).state.turns = st.turns ∧
    (chatbotHandler api2 (chatbotHandler api1 st uid body1).state uid body2).apiCalls =
      [] := by
  have h1 := chatbot_found_outcome api1 st uid body1 u hf
  have hfind1 : (chatbotHandler api1 st uid body1).state.users.find?
      (fun v => v.id == uid) = some (roleUpdatedUser u body1) := by
    rw [h1]
    exact find_usersAfterRole st uid body1 u hf
  have h2 := chatbot_found_outcome api2 (chatbotHandler api1 st uid body1).state uid body2
    (roleUpdatedUser u body1) hfind1
  rw [h2, h1]
  exact ⟨rfl, rfl, rfl⟩

/-- Witness for chat_history_never_forwarded: two sequential requests on the
demonstration store, the second recording zero outbound calls. -/
theorem chat_history_never_forwarded_witness :
    (chatbotHandler (fun _ => Except.ok "yo") demoState 1
        { message := "hi", systemRole := none }).resp.status = 500 ∧
    (chatbotHandler (fun _ => Except.ok "yo") demoState 1
        { message := "hi", systemRole := none }).state.turns = demoState.turns ∧
    (chatbotHandler (fun _ => Except.ok "yo2")
        (chatbotHandler (fun _ => Except.ok "yo") demoState 1
          { message := "hi", systemRole := none }).state 1
        { message := "again", systemRole := none }).apiCalls = [] :=
  chat_history_never_forwarded (fun _ => Except.ok "yo") (fun _ => Except.ok "yo2")
    demoState 1 demoUser { message := "hi", systemRole := none }
    { message := "again", systemRole := none } (by decide)
